import Mathlib

/-!
Verification development for httprunner's `make.py` (testcase-to-pytest
transpiler).  The definitions below shallowly embed the module's data model
and operations: Python dicts of scalar values become association lists,
filesystem and collaborator calls (loader, parser, compat layer, validator
normalizer, subprocess) become fields of an explicit `Env`, and the module's
two process-global caches plus all side effects (file writes, log lines,
error reports) become an explicit `MakeState` threaded through the
functions.  Paths follow POSIX `os.path` semantics.
-/

/-- Python scalar values, as they appear in the documents the claims
exercise (strings, ints, bools, None).  Container values nested inside
variable maps are not needed by any claim and are elided. -/
inductive PyVal where
  | str (s : String)
  | int (n : Int)
  | bool (b : Bool)
  | none
deriving DecidableEq

/-- Python `str(value)` for the scalars above (used by f-string embedding). -/
def pyStr : PyVal → String
  | PyVal.str s => s
  | PyVal.int n => toString n
  | PyVal.bool b => if b then "True" else "False"
  | PyVal.none => "None"

/-- Python `repr(value)` for the scalars above (used inside dict/list reprs). -/
def pyRepr : PyVal → String
  | PyVal.str s => "\x27" ++ s ++ "\x27"
  | PyVal.int n => toString n
  | PyVal.bool b => if b then "True" else "False"
  | PyVal.none => "None"

/-- A Python `dict` of scalar values: an insertion-ordered, duplicate-free
association list. -/
abbrev VarMap := List (String × PyVal)

/-- Python `d[k]` / `d.get(k)`: first binding of the key. -/
def dictLookup : VarMap → String → Option PyVal
  | [], _ => Option.none
  | (k', v) :: rest, k => if k' = k then some v else dictLookup rest k

/-- Python `d[k] = v` on an insertion-ordered dict: overwrite in place when
the key is present, append otherwise. -/
def dictSet (d : VarMap) (k : String) (v : PyVal) : VarMap :=
  if (dictLookup d k).isSome then
    d.map (fun p => if p.1 = k then (k, v) else p)
  else
    d ++ [(k, v)]

/-- Python `d.update(e)`: apply every binding of `e` to `d` in order. -/
def dictUpdate (d e : VarMap) : VarMap :=
  e.foldl (fun acc kv => dictSet acc kv.1 kv.2) d

/-- Python `str(dict)` for a dict of scalars, e.g. `{'a': 1}`. -/
def pyReprDict (d : VarMap) : String :=
  "\x7b" ++ String.intercalate ", "
    (d.map (fun kv => "\x27" ++ kv.1 ++ "\x27: " ++ pyRepr kv.2)) ++ "\x7d"

/-- Python `str(list)` for a list of strings, e.g. `['a', 'b']`. -/
def pyReprStrList (l : List String) : String :=
  "[" ++ String.intercalate ", " (l.map (fun x => "\x27" ++ x ++ "\x27")) ++ "]"

/-- Python `s.lower()` (ASCII). -/
def strLower (s : String) : String := String.mk (s.data.map Char.toLower)

/-- Python `s.endswith(suffix)`. -/
def strEndsWith (s suffix : String) : Bool := suffix.data.isSuffixOf s.data

/-- Python `s.replace(old, new)` for single-character `old`/`new` (the only
form `make.py` uses). -/
def strReplaceChar (s : String) (old new : Char) : String :=
  String.mk (s.data.map (fun c => if c = old then new else c))

/-- Python `s.replace(old, "")` for a single-character `old`. -/
def strRemoveChar (s : String) (old : Char) : String :=
  String.mk (s.data.filter (fun c => c != old))

/-- Python `s.title()` (ASCII): uppercase each alphabetic character that
follows a non-alphabetic one, lowercase the rest. -/
def pyTitle (s : String) : String :=
  String.mk (s.data.foldl
    (fun (acc : List Char × Bool) c =>
      if c.isAlpha then
        (acc.1 ++ [if acc.2 then c.toLower else c.toUpper], true)
      else
        (acc.1 ++ [c], false))
    ([], false)).1

/-- Python `s[n:]` (slice from `n`; empty when `n` exceeds the length). -/
def pySliceFrom (s : String) (n : Nat) : String := String.mk (s.data.drop n)

/-- POSIX `os.path.isabs`: the path starts with a slash. -/
def isabs (p : String) : Bool := p.data.head? == some '/'

/-- POSIX `os.path.basename`: the part after the last slash. -/
def os_path_basename (p : String) : String :=
  String.mk ((p.data.reverse.takeWhile (fun c => c != '/')).reverse)

/-- POSIX `os.path.dirname`: the part before the last slash, with trailing
slashes stripped unless the result is all slashes. -/
def os_path_dirname (p : String) : String :=
  let headRev := p.data.reverse.dropWhile (fun c => c != '/')
  if headRev.isEmpty then ""
  else if headRev.all (fun c => c == '/') then String.mk headRev.reverse
  else String.mk ((headRev.dropWhile (fun c => c == '/')).reverse)

/-- POSIX two-argument `os.path.join`. -/
def os_path_join (a b : String) : String :=
  if isabs b then b
  else if a = "" ∨ strEndsWith a "/" then a ++ b
  else a ++ "/" ++ b

/-- Index of the last occurrence of a character in a list, if any. -/
def rfindIdx (l : List Char) (c : Char) : Option Nat :=
  ((List.range l.length).filter (fun i => l.get? i == some c)).getLast?

/-- POSIX `os.path.splitext`: split off the extension at the last dot of the
base name, unless every character of the base name before that dot is a dot. -/
def splitext (p : String) : String × String :=
  let l := p.data
  let filenameIdx := match rfindIdx l '/' with
    | some i => i + 1
    | Option.none => 0
  match rfindIdx l '.' with
  | Option.none => (p, "")
  | some dotIdx =>
    if filenameIdx ≤ dotIdx then
      if (List.range' filenameIdx (dotIdx - filenameIdx)).any
          (fun j => l.get? j != some '.') then
        (String.mk (l.take dotIdx), String.mk (l.drop dotIdx))
      else (p, "")
    else (p, "")

/-! ## Errors, documents, collaborators -/

/-- The exception taxonomy `make.py` raises or catches.  `KeyError`,
`IndexError` and `AttributeError` model the corresponding Python built-in
exceptions at the spots where the code indexes unconditionally;
`OutOfFuel` marks exhaustion of the recursion bound of the embedding
(reference chains are unbounded in the source). -/
inductive HRError where
  | ParamsError (msg : String)
  | TestCaseFormatError (msg : String)
  | TestSuiteFormatError (msg : String)
  | FileNotFound (msg : String)
  | FileFormatError (msg : String)
  | TestcaseNotFound (msg : String)
  | KeyError
  | IndexError
  | AttributeError
  | OutOfFuel
deriving DecidableEq

/-- `config` block of a testcase/testsuite document.  Absent dict keys are
`Option.none`; the `variables` value (field `vars`; `variables` collides
with a Lean command, `export` with a Lean keyword, hence the renames) may
still be an unresolved expression string (`ConfigVars.expr`) before the
parser collaborator runs. -/
inductive ConfigVars where
  | expr (s : String)
  | map (m : VarMap)
deriving DecidableEq

structure Config where
  name : String := ""
  path : Option String := Option.none
  vars : Option ConfigVars := Option.none
  base_url : Option String := Option.none
  verify : Option PyVal := Option.none
  exports : Option (List String) := Option.none
deriving DecidableEq

/-- `request` block of a teststep (make.py lines 158-201). -/
structure Request where
  method : String
  url : String
  params : Option VarMap := Option.none
  headers : Option VarMap := Option.none
  cookies : Option VarMap := Option.none
  data : Option PyVal := Option.none
  json : Option PyVal := Option.none
  timeout : Option PyVal := Option.none
  verify : Option PyVal := Option.none
  allow_redirects : Option PyVal := Option.none
  upload : Option VarMap := Option.none
deriving DecidableEq

/-- A validator entry after `uniform_validator` normalization:
`{"assert": m, "check": c, "expect": e}`. -/
structure Validator where
  assert_method : String
  check : String
  expect : PyVal
deriving DecidableEq

/-- A teststep dict.  `request`/`testcase` absent is `Option.none`; the
`testcase` field initially holds a path and is rewritten to a class name
during reference preparation.  Python keys `variables`/`export` are fields
`vars`/`exports` (Lean keyword collisions). -/
structure TestStep where
  name : String := ""
  request : Option Request := Option.none
  testcase : Option String := Option.none
  vars : Option VarMap := Option.none
  extract : Option (List (String × String)) := Option.none
  exports : Option (List String) := Option.none
  validate : Option (List Validator) := Option.none
deriving DecidableEq

structure TestCaseDoc where
  config : Config := {}
  teststeps : List TestStep := []
deriving DecidableEq

/-- One entry of a testsuite's `testcases` list. -/
structure SuiteCaseRef where
  testcase : String
  name : String := ""
  vars : Option VarMap := Option.none
  base_url : Option String := Option.none
deriving DecidableEq

structure TestSuiteDoc where
  config : Config := {}
  testcases : List SuiteCaseRef := []
deriving DecidableEq

/-- A legacy v2 api document (recognized by a top-level `request` key);
its contents only matter to the external compat collaborator. -/
structure ApiDocV2 where
  raw : String := ""
deriving DecidableEq

/-- Shape of a dict returned by the loader collaborator, as `__make`
probes it: a testcase (`teststeps` key), a testsuite (`testcases` key),
a legacy api (`request` key), or neither. -/
inductive TestContent where
  | case (d : TestCaseDoc)
  | suite (d : TestSuiteDoc)
  | api (a : ApiDocV2)
  | invalid
deriving DecidableEq

/-- `make_testsuite` passes whatever the loader returned straight into
case generation; shapes other than a testcase lack `teststeps` and are
represented by an empty step list (the validation collaborator rejects
them downstream). -/
def contentAsCaseDoc : TestContent → TestCaseDoc
  | TestContent.case d => d
  | TestContent.suite d => { config := d.config, teststeps := [] }
  | TestContent.api _ => {}
  | TestContent.invalid => {}

/-! ## Side effects and process state -/

/-- One observable side effect of a run. -/
inductive Event where
  | write (path : String) (content : String)
  | writeInit (path : String)
  | makedirs (path : String)
  | logInfo (msg : String)
  | logWarning (msg : String)
  | logError (msg : String)
  | captureException (msg : String)
deriving DecidableEq

/-- The module's process-lifetime state: the two caches declared at
make.py lines 24-25 plus the chronological effect trace.  Python sets are
modelled as insertion-ordered duplicate-free lists. -/
structure MakeState where
  make_files_cache_set : List String := []
  pytest_files_set : List String := []
  events : List Event := []
deriving DecidableEq

def stEmit (st : MakeState) (e : Event) : MakeState :=
  { st with events := st.events ++ [e] }

def stLogInfo (st : MakeState) (m : String) : MakeState := stEmit st (Event.logInfo m)

def stLogWarning (st : MakeState) (m : String) : MakeState := stEmit st (Event.logWarning m)

def stLogError (st : MakeState) (m : String) : MakeState := stEmit st (Event.logError m)

def stCapture (st : MakeState) (m : String) : MakeState := stEmit st (Event.captureException m)

def stWrite (st : MakeState) (p c : String) : MakeState := stEmit st (Event.write p c)

def stMakedirs (st : MakeState) (p : String) : MakeState := stEmit st (Event.makedirs p)

/-- Python `set.add`. -/
def setAdd (s : List String) (x : String) : List String :=
  if x ∈ s then s else s ++ [x]

/-- Number of times the run wrote the file at `p`. -/
def countWrites (st : MakeState) (p : String) : Nat :=
  (st.events.filter (fun e => match e with
    | Event.write q _ => q == p
    | _ => false)).length

def wroteInitAt (events : List Event) (p : String) : Bool :=
  events.any (fun e => match e with
    | Event.writeInit q => q == p
    | _ => false)

/-- The external collaborators of make.py (loader, parser, compat layer,
validator normalizer, project metadata) together with the filesystem
queries the module performs.  Each field mirrors one imported function. -/
structure Env where
  cwd : String := "/home/project"
  version : String := "3.0.13"
  isDir : String → Bool := fun _ => false
  isFile : String → Bool := fun _ => false
  folderFiles : String → List String := fun _ => []
  load_test_file : String → Except HRError TestContent := fun p => Except.error (HRError.FileNotFound p)
  projectPWD : String → String := fun _ => "/home/project"
  parse_data : String → VarMap := fun _ => []
  ensure_testcase_v3 : TestCaseDoc → TestCaseDoc := id
  ensure_testcase_v3_api : ApiDocV2 → TestCaseDoc := fun _ => {}
  load_testcase : TestCaseDoc → Except HRError Unit := fun _ => Except.ok ()
  load_testsuite : TestSuiteDoc → Except HRError Unit := fun _ => Except.ok ()
  uniform_validator : Validator → Validator := id

/-- Python truthiness of an optional string value (absent or empty is falsy). -/
def truthyOptStr : Option String → Bool
  | some s => !(s == "")
  | Option.none => false

/-- Python truthiness of an optional `request` mapping: a present request
dict always carries `method` and `url`, hence is non-empty and truthy. -/
def truthyRequest : Option Request → Bool
  | some _ => true
  | Option.none => false

/-! ## Path derivation (make.py lines 57-127) -/

/-- `__ensure_file_name` (make.py lines 57-65): if the base name starts
with a decimal digit, prefix it with `T`.  Python's `filename[0]` raises
`IndexError` on an empty base name. -/
def __ensure_file_name (path : String) : Except HRError String :=
  let filename := os_path_basename path
  match filename.data with
  | [] => Except.error HRError.IndexError
  | c :: _ =>
    if c.isDigit then
      Except.ok (os_path_join (os_path_dirname path) ("T" ++ filename))
    else Except.ok path

/-- `__ensure_absolute` (make.py lines 68-76): absolute paths unchanged,
relative paths joined with the project root from the metadata collaborator. -/
def __ensure_absolute (env : Env) (path : String) : String :=
  if isabs path then path else os_path_join (env.projectPWD path) path

/-- `__ensure_cwd_relative` (make.py lines 79-91): an absolute path loses
its first `len(os.getcwd()) + 1` characters, a relative path is returned
unchanged. -/
def __ensure_cwd_relative (env : Env) (path : String) : String :=
  if isabs path then pySliceFrom path (env.cwd.length + 1) else path

/-- `__ensure_testcase_module` (make.py lines 94-102): create `__init__.py`
next to the artifact unless it already exists (on disk, or written earlier
in this run). -/
def __ensure_testcase_module (env : Env) (st : MakeState) (path : String) : MakeState :=
  let init_file := os_path_join (os_path_dirname path) "__init__.py"
  if env.isFile init_file || wroteInitAt st.events init_file then st
  else stEmit st (Event.writeInit init_file)

/-- `convert_testcase_path` (make.py lines 105-127): derive the pytest
artifact path and class identifier from a source document path. -/
def convert_testcase_path (env : Env) (testcase_path : String) :
    Except HRError (String × String) :=
  if env.isDir testcase_path then
    Except.ok (testcase_path, "")
  else
    match __ensure_file_name testcase_path with
    | Except.error e => Except.error e
    | Except.ok testcase_path =>
      let (raw_file_name, file_suffix) := splitext (os_path_basename testcase_path)
      let file_suffix := strLower file_suffix
      if file_suffix ∉ [".json", ".yml", ".yaml", ".har"] then
        Except.error (HRError.ParamsError "testcase file should have .yaml/.yml/.json suffix")
      else
        let file_name :=
          strReplaceChar (strReplaceChar (strReplaceChar raw_file_name ' ' '_') '.' '_') '-' '_'
        let testcase_dir := os_path_dirname testcase_path
        let testcase_python_path := os_path_join testcase_dir (file_name ++ "_test.py")
        let name_in_title_case := strRemoveChar (pyTitle file_name) '_'
        Except.ok (testcase_python_path, name_in_title_case)

/-- `format_pytest_with_black` (make.py lines 130-137).  The formatter
collaborator is an external process; modelled from the spec: the invocation
either succeeds or fails with a process error, which the code catches,
reports to the error tracker and logs.  The function itself never raises. -/
def format_pytest_with_black (black : List String → Except String Unit)
    (st : MakeState) (python_paths : List String) : MakeState :=
  let st := stLogInfo st "format pytest cases with black ..."
  match black python_paths with
  | Except.ok _ => st
  | Except.error ex => stLogError (stCapture st ex) ex

/-! ## Node serialization (make.py lines 139-251) -/

/-- `make_config_chain_style` (make.py lines 139-155).  The `variables`
key is always present when called from `make_testcase` (setdefault at line
281); an absent key is treated as falsy here. -/
def make_config_chain_style (config : Config) : String :=
  let s := "Config(\"" ++ config.name ++ "\")"
  let s := match config.vars with
    | some (ConfigVars.map m) =>
      if m.isEmpty then s else s ++ ".variables(**" ++ pyReprDict m ++ ")"
    | some (ConfigVars.expr e) =>
      if e = "" then s else s ++ ".variables(**" ++ e ++ ")"
    | Option.none => s
  let s := match config.base_url with
    | some b => s ++ ".base_url(\"" ++ b ++ "\")"
    | Option.none => s
  let s := match config.verify with
    | some v => s ++ ".verify(" ++ pyStr v ++ ")"
    | Option.none => s
  match config.exports with
  | some ex => s ++ ".export(*" ++ pyReprStrList ex ++ ")"
  | Option.none => s

/-- `make_request_chain_style` (make.py lines 158-201). -/
def make_request_chain_style (request : Request) : String :=
  let s := "." ++ strLower request.method ++ "(\"" ++ request.url ++ "\")"
  let s := match request.params with
    | some m => s ++ ".with_params(**" ++ pyReprDict m ++ ")"
    | Option.none => s
  let s := match request.headers with
    | some m => s ++ ".with_headers(**" ++ pyReprDict m ++ ")"
    | Option.none => s
  let s := match request.cookies with
    | some m => s ++ ".with_cookies(**" ++ pyReprDict m ++ ")"
    | Option.none => s
  let s := match request.data with
    | some (PyVal.str d) => s ++ ".with_data(\"" ++ d ++ "\")"
    | some v => s ++ ".with_data(" ++ pyStr v ++ ")"
    | Option.none => s
  let s := match request.json with
    | some v => s ++ ".with_json(" ++ pyStr v ++ ")"
    | Option.none => s
  let s := match request.timeout with
    | some v => s ++ ".set_timeout(" ++ pyStr v ++ ")"
    | Option.none => s
  let s := match request.verify with
    | some v => s ++ ".set_verify(" ++ pyStr v ++ ")"
    | Option.none => s
  let s := match request.allow_redirects with
    | some v => s ++ ".set_allow_redirects(" ++ pyStr v ++ ")"
    | Option.none => s
  match request.upload with
  | some m => s ++ ".upload(**" ++ pyReprDict m ++ ")"
  | Option.none => s

/-- Body of the validator loop (make.py lines 238-249): normalize the
entry, wrap the check expression in single quotes when it contains a
double quote and in double quotes otherwise, quote text expected values,
embed non-text ones literally, and emit one chained assertion call. -/
def serialize_validator (env : Env) (v : Validator) : String :=
  let validator := env.uniform_validator v
  let check :=
    if validator.check.contains '"' then "\x27" ++ validator.check ++ "\x27"
    else "\"" ++ validator.check ++ "\""
  let expect := match validator.expect with
    | PyVal.str s => "\"" ++ s ++ "\""
    | e => pyStr e
  ".assert_" ++ validator.assert_method ++ "(" ++ check ++ ", " ++ expect ++ ")"

/-- Chained-call part of `make_teststep_chain_style` after the step-kind
constructor (make.py lines 212-249). -/
def make_teststep_body (env : Env) (teststep : TestStep) (start : String) : String :=
  let s := start
  let s := match teststep.vars with
    | some m => s ++ ".with_variables(**" ++ pyReprDict m ++ ")"
    | Option.none => s
  let s := match teststep.request with
    | some req => s ++ make_request_chain_style req
    | Option.none =>
      match teststep.testcase with
      | some tc => if tc == "" then s else s ++ ".call(" ++ tc ++ ")"
      | Option.none => s
  let s := match teststep.extract with
    | some ex =>
      ex.foldl (fun a kv => a ++ ".with_jmespath(\"" ++ kv.2 ++ "\", \"" ++ kv.1 ++ "\")")
        (s ++ ".extract()")
    | Option.none => s
  let s := match teststep.exports with
    | some ex => s ++ ".export(*" ++ pyReprStrList ex ++ ")"
    | Option.none => s
  match teststep.validate with
  | some vs => vs.foldl (fun a v => a ++ serialize_validator env v) (s ++ ".validate()")
  | Option.none => s

/-- `make_teststep_chain_style` (make.py lines 204-251): dispatch on the
truthiness of `request`/`testcase`, raising the testcase format error when
neither is truthy.  (The Python message interpolates the whole step dict;
the message text is not claim-relevant and is kept fixed here.) -/
def make_teststep_chain_style (env : Env) (teststep : TestStep) : Except HRError String :=
  if truthyRequest teststep.request then
    Except.ok ("Step(" ++
      make_teststep_body env teststep ("RunRequest(\"" ++ teststep.name ++ "\")") ++ ")")
  else if truthyOptStr teststep.testcase then
    Except.ok ("Step(" ++
      make_teststep_body env teststep ("RunTestCase(\"" ++ teststep.name ++ "\")") ++ ")")
  else
    Except.error (HRError.TestCaseFormatError "Invalid teststep")

/-- The list comprehension at make.py lines 320-322: serialize every step,
propagating the first error. -/
def serialize_steps (env : Env) : List TestStep → Except HRError (List String)
  | [] => Except.ok []
  | s :: rest =>
    match make_teststep_chain_style env s with
    | Except.error e => Except.error e
    | Except.ok v =>
      match serialize_steps env rest with
      | Except.error e => Except.error e
      | Except.ok vs => Except.ok (v :: vs)

/-- The Jinja2 template `__TEMPLATE__` (make.py lines 27-53), rendered by
string concatenation; surrounding whitespace approximates the template's. -/
def render_template (version testcase_path class_name : String)
    (imports_list : List String) (config_chain_style : String)
    (teststeps_chain_style : List String) : String :=
  "# NOTICE: Generated By HttpRunner v" ++ version ++ "\n" ++
  "# FROM: " ++ testcase_path ++ "\n" ++
  (if imports_list.isEmpty then ""
   else "\nimport os\nimport sys\n\nsys.path.insert(0, os.getcwd())\n") ++
  "from httprunner import HttpRunner, Config, Step, RunRequest, RunTestCase\n" ++
  String.join (imports_list.map (fun s => s ++ "\n")) ++
  "\n\nclass " ++ class_name ++ "(HttpRunner):\n" ++
  "    config = " ++ config_chain_style ++ "\n\n" ++
  "    teststeps = [\n" ++
  String.join (teststeps_chain_style.map (fun s => "        " ++ s ++ ",\n")) ++
  "    ]\n\n" ++
  "if __name__ == \"__main__\":\n    " ++ class_name ++ "().test_start()\n"

/-! ## Reference preparation, suite expansion, batch dispatch -/

/-- The reference-preparation loop of `make_testcase` (make.py lines
290-312): for every step with a truthy `testcase` field, generate the
referenced document (`mk` is the recursive `__make` call with
`ref_flag=True`), rewrite the step's `testcase` field to the referenced
class identifier, and record the import statement.  Returns the collected
list of import statements and the rewritten steps; errors of the recursive generation and
of `convert_testcase_path` propagate. -/
def prepare_ref_steps (env : Env)
    (mk : MakeState → String → MakeState × Except HRError Unit) :
    MakeState → List TestStep →
    MakeState × Except HRError (List String × List TestStep)
  | st, [] => (st, Except.ok ([], []))
  | st, teststep :: rest =>
    if truthyOptStr teststep.testcase then
      let ref_testcase_path := __ensure_absolute env (teststep.testcase.getD "")
      match mk st ref_testcase_path with
      | (st1, Except.error e) => (st1, Except.error e)
      | (st1, Except.ok _) =>
        match convert_testcase_path env ref_testcase_path with
        | Except.error e => (st1, Except.error e)
        | Except.ok (ref_testcase_python_path, ref_testcase_cls_name) =>
          let teststep := { teststep with testcase := some ref_testcase_cls_name }
          let ref_rel := pySliceFrom ref_testcase_python_path (env.cwd.length + 1)
          let ref_module_name := strReplaceChar (splitext ref_rel).1 '/' '.'
          let import_str := "from " ++ ref_module_name ++ " import TestCase" ++
            ref_testcase_cls_name ++ " as " ++ ref_testcase_cls_name
          match prepare_ref_steps env mk st1 rest with
          | (st2, Except.error e) => (st2, Except.error e)
          | (st2, Except.ok (imps, steps)) =>
            (st2, Except.ok (import_str :: imps, teststep :: steps))
    else
      match prepare_ref_steps env mk st rest with
      | (st2, Except.error e) => (st2, Except.error e)
      | (st2, Except.ok (imps, steps)) => (st2, Except.ok (imps, teststep :: steps))

/-- The field overrides of `make_testsuite`'s per-reference block other
than variables (make.py lines 370-380): inject the source path, override
the name, override base_url (suite value first, by `or`-truthiness),
override verify when the suite specifies one. -/
def suite_override_base (config0 : Config) (testcase : SuiteCaseRef)
    (testsuite_config : Config) (testcase_path : String) : Config :=
  let config := { config0 with path := some testcase_path }
  let config := { config with name := testcase.name }
  let base_url :=
    if truthyOptStr testsuite_config.base_url then testsuite_config.base_url
    else testcase.base_url
  let config :=
    if truthyOptStr base_url then { config with base_url := base_url } else config
  match testsuite_config.verify with
  | some v => { config with verify := some v }
  | Option.none => config

/-- The per-reference config override block of `make_testsuite` (make.py
lines 369-384): the field overrides above, then the variable merge by two
in-place `dict.update` calls — reference-entry variables first, suite
variables last.  A `variables` value still in expression-string form has
no `.update` method (Python `AttributeError`). -/
def suite_override_config (testcase_dict : TestCaseDoc) (testcase : SuiteCaseRef)
    (testsuite_config : Config) (testsuite_variables : VarMap)
    (testcase_path : String) : Except HRError TestCaseDoc :=
  let config := suite_override_base testcase_dict.config testcase testsuite_config testcase_path
  match config.vars.getD (ConfigVars.map []) with
  | ConfigVars.expr _ => Except.error HRError.AttributeError
  | ConfigVars.map m =>
    let m := dictUpdate m (testcase.vars.getD [])
    let m := dictUpdate m testsuite_variables
    Except.ok { testcase_dict with config := { config with vars := some (ConfigVars.map m) } }

/-- The per-file loop of `__make` (make.py lines 408-441): record
already-generated pytest files, load each remaining file (skipping, with a
warning, files the loader rejects as missing or malformed), upgrade legacy
api documents, inject `config.path`, then dispatch — catching the testcase
format error around case generation and the testsuite format error around
suite generation so the batch continues; all other errors propagate.
`mkCase`/`mkSuite` are the recursive generation calls. -/
def make_files_loop (env : Env)
    (mkCase : MakeState → TestCaseDoc → MakeState × Except HRError String)
    (mkSuite : MakeState → TestSuiteDoc → MakeState × Except HRError Unit) :
    MakeState → List String → MakeState × Except HRError Unit
  | st, [] => (st, Except.ok ())
  | st, test_file :: rest =>
    if strEndsWith (strLower test_file) "_test.py" then
      make_files_loop env mkCase mkSuite
        { st with pytest_files_set := setAdd st.pytest_files_set test_file } rest
    else
      match env.load_test_file test_file with
      | Except.error (HRError.FileNotFound m) =>
        make_files_loop env mkCase mkSuite (stLogWarning st m) rest
      | Except.error (HRError.FileFormatError m) =>
        make_files_loop env mkCase mkSuite (stLogWarning st m) rest
      | Except.error e => (st, Except.error e)
      | Except.ok content =>
        match (match content with
               | TestContent.api a => TestContent.case (env.ensure_testcase_v3_api a)
               | c => c) with
        | TestContent.case d =>
          (match mkCase st { d with config := { d.config with path := some test_file } } with
           | (st1, Except.error (HRError.TestCaseFormatError _)) =>
             make_files_loop env mkCase mkSuite st1 rest
           | (st1, Except.error e) => (st1, Except.error e)
           | (st1, Except.ok _) => make_files_loop env mkCase mkSuite st1 rest)
        | TestContent.suite d =>
          (match mkSuite st { d with config := { d.config with path := some test_file } } with
           | (st1, Except.error (HRError.TestSuiteFormatError _)) =>
             make_files_loop env mkCase mkSuite st1 rest
           | (st1, Except.error e) => (st1, Except.error e)
           | (st1, Except.ok _) => make_files_loop env mkCase mkSuite st1 rest)
        | TestContent.api _ =>
          -- unreachable: api documents were converted just above
          make_files_loop env mkCase mkSuite st rest
        | TestContent.invalid =>
          make_files_loop env mkCase mkSuite
            (stLogWarning st ("skip invalid testcase/testsuite file: " ++ test_file)) rest

/-- The per-reference loop of `make_testsuite` (make.py lines 364-387):
load each referenced case fresh, apply the override block, and generate it
(`mkCase` is `make_testcase` with the suite's container directory).
Loader and generation errors propagate — `make_testsuite` has no handler. -/
def make_suite_cases_loop (env : Env)
    (mkCase : MakeState → TestCaseDoc → MakeState × Except HRError String)
    (testsuite_config : Config) (testsuite_variables : VarMap) :
    MakeState → List SuiteCaseRef → MakeState × Except HRError Unit
  | st, [] => (st, Except.ok ())
  | st, testcase :: rest =>
    let testcase_path := __ensure_absolute env testcase.testcase
    match env.load_test_file testcase_path with
    | Except.error e => (st, Except.error e)
    | Except.ok content =>
      match suite_override_config (contentAsCaseDoc content) testcase
          testsuite_config testsuite_variables testcase_path with
      | Except.error e => (st, Except.error e)
      | Except.ok testcase_dict =>
        match mkCase st testcase_dict with
        | (st1, Except.error e) => (st1, Except.error e)
        | (st1, Except.ok _) =>
          make_suite_cases_loop env mkCase testsuite_config testsuite_variables st1 rest

/-! ## The recursion core (make.py lines 254-458) -/

mutual

/-- `make_testcase` (make.py lines 254-336): convert one testcase document
to a pytest file.  The first argument bounds the reference-recursion depth
(the source enforces no bound). -/
def make_testcase : Nat → Env → MakeState → TestCaseDoc → Option String → Bool →
    MakeState × Except HRError String
  | 0, _, st, _, _, _ => (st, Except.error HRError.OutOfFuel)
  | fuel + 1, env, st, testcase, dir_path, ref_flag =>
    let testcase := env.ensure_testcase_v3 testcase
    match env.load_testcase testcase with
    | Except.error e => (st, Except.error e)
    | Except.ok _ =>
      match testcase.config.path with
      | Option.none => (st, Except.error HRError.KeyError)
      | some cfg_path =>
        let testcase_path := __ensure_absolute env cfg_path
        let st := stLogInfo st ("start to make testcase: " ++ testcase_path)
        match convert_testcase_path env testcase_path with
        | Except.error e => (st, Except.error e)
        | Except.ok (converted_path, testcase_cls_name) =>
          let testcase_python_path :=
            if truthyOptStr dir_path then
              os_path_join (dir_path.getD "") (os_path_basename converted_path)
            else converted_path
          if testcase_python_path ∈ st.make_files_cache_set then
            (st, Except.ok testcase_python_path)
          else
            let config := testcase.config
            let config := { config with path := some (__ensure_cwd_relative env testcase_python_path) }
            let config := { config with vars :=
              match config.vars with
              | Option.none => some (ConfigVars.map [])
              | some (ConfigVars.expr s) => some (ConfigVars.map (env.parse_data s))
              | some (ConfigVars.map m) => some (ConfigVars.map m) }
            match prepare_ref_steps env (fun s p => __make fuel env s p true)
                st testcase.teststeps with
            | (st1, Except.error e) => (st1, Except.error e)
            | (st1, Except.ok (imports_list, teststeps)) =>
              match serialize_steps env teststeps with
              | Except.error e => (st1, Except.error e)
              | Except.ok teststeps_chain_style =>
                let content := render_template env.version
                  (__ensure_cwd_relative env testcase_path)
                  ("TestCase" ++ testcase_cls_name) imports_list
                  (make_config_chain_style config) teststeps_chain_style
                let st2 := stWrite st1 testcase_python_path content
                let st3 := __ensure_testcase_module env st2 testcase_python_path
                let st4 := stLogInfo st3 ("generated testcase: " ++ testcase_python_path)
                let cached := setAdd st4.make_files_cache_set (__ensure_cwd_relative env testcase_python_path)
                let st5 :=
                  if ref_flag then st4
                  else { st4 with make_files_cache_set := cached }
                (st5, Except.ok testcase_python_path)

/-- `make_testsuite` (make.py lines 339-387): expand a testsuite into a
container directory of generated cases. -/
def make_testsuite : Nat → Env → MakeState → TestSuiteDoc →
    MakeState × Except HRError Unit
  | 0, _, st, _ => (st, Except.error HRError.OutOfFuel)
  | fuel + 1, env, st, testsuite =>
    match env.load_testsuite testsuite with
    | Except.error e => (st, Except.error e)
    | Except.ok _ =>
      match testsuite.config.path with
      | Option.none => (st, Except.error HRError.KeyError)
      | some testsuite_path =>
        let testsuite_variables := match testsuite.config.vars with
          | some (ConfigVars.expr s) => env.parse_data s
          | some (ConfigVars.map m) => m
          | Option.none => []
        let st := stLogInfo st ("start to make testsuite: " ++ testsuite_path)
        let testsuite_dir := os_path_join (os_path_dirname testsuite_path)
          (strReplaceChar (os_path_basename testsuite_path) '.' '_')
        let st := stMakedirs st testsuite_dir
        make_suite_cases_loop env
          (fun s d => make_testcase fuel env s d (some testsuite_dir) false)
          testsuite.config testsuite_variables st testsuite.testcases

/-- `__make` (make.py lines 390-441): expand a directory or accept a single
file, then process each file via the batch loop. -/
def __make : Nat → Env → MakeState → String → Bool →
    MakeState × Except HRError Unit
  | 0, _, st, _, _ => (st, Except.error HRError.OutOfFuel)
  | fuel + 1, env, st, tests_path, ref_flag =>
    match (if env.isDir tests_path then some (env.folderFiles tests_path)
           else if env.isFile tests_path then some [tests_path]
           else Option.none) with
    | Option.none => (st, Except.error (HRError.TestcaseNotFound ("Invalid tests path: " ++ tests_path)))
    | some test_files =>
      make_files_loop env
        (fun s d => make_testcase fuel env s d Option.none ref_flag)
        (fun s d => make_testsuite fuel env s d)
        st test_files

end

/-- The path loop of `main_make` (make.py lines 448-452): absolutize each
input path against the working directory and run `__make`; errors
propagate (there is no handler in `main_make`). -/
def main_make_loop (fuel : Nat) (env : Env) :
    MakeState → List String → MakeState × Except HRError Unit
  | st, [] => (st, Except.ok ())
  | st, tests_path :: rest =>
    let tests_path := if isabs tests_path then tests_path
      else os_path_join env.cwd tests_path
    match __make fuel env st tests_path false with
    | (st1, Except.error e) => (st1, Except.error e)
    | (st1, Except.ok _) => main_make_loop fuel env st1 rest

/-- `main_make` (make.py lines 444-458): empty input short-circuits to an
empty list; otherwise process every path, merge the dedup cache into the
discovered-pytest set, format the resulting list with black (best-effort),
and return it.  Python's `list(set)` order is unspecified; the model keeps
insertion order. -/
def main_make (fuel : Nat) (env : Env) (black : List String → Except String Unit)
    (st : MakeState) (tests_paths : List String) :
    MakeState × Except HRError (List String) :=
  match tests_paths with
  | [] => (st, Except.ok [])
  | _ :: _ =>
    match main_make_loop fuel env st tests_paths with
    | (st1, Except.error e) => (st1, Except.error e)
    | (st1, Except.ok _) =>
      let st2 := { st1 with pytest_files_set :=
        st1.make_files_cache_set.foldl setAdd st1.pytest_files_set }
      let pytest_files_list := st2.pytest_files_set
      let st3 := format_pytest_with_black black st2 pytest_files_list
      (st3, Except.ok pytest_files_list)

/-! ## Concrete fixtures used by witnesses and counterexamples -/

/-- A run environment with an absolute project root and working directory
`/home/project`, no directories, and trivially succeeding validation
collaborators. -/
def exEnv : Env := {}

def exStep : TestStep := { name := "s1", request := some { method := "GET", url := "/ping" } }

def exDoc : TestCaseDoc :=
  { config := { name := "demo", path := some "testcases/demo.json" },
    teststeps := [exStep] }

/-- A step carrying neither a `request` nor a `testcase` field. -/
def exBadStep : TestStep := { name := "bad" }

def exBadDoc : TestCaseDoc :=
  { config := { name := "bad", path := some "testcases/bad.json" },
    teststeps := [exBadStep] }

def st0 : MakeState := {}

/-- A loader serving one malformed-step testcase file. -/
def exEnvBatch : Env :=
  { load_test_file := fun f =>
      if f == "bad.yml" then Except.ok (TestContent.case exBadDoc)
      else Except.error (HRError.FileNotFound f) }

/-- A case generator that fails with the testcase format error. -/
def exMkCaseFail : MakeState → TestCaseDoc → MakeState × Except HRError String :=
  fun st _ => (st, Except.error (HRError.TestCaseFormatError "Invalid teststep"))

def exMkSuite : MakeState → TestSuiteDoc → MakeState × Except HRError Unit :=
  fun st _ => (st, Except.ok ())

/-- A formatter invocation that fails. -/
def blackFail : List String → Except String Unit := fun _ => Except.error "black failed"

/-- A formatter invocation that succeeds. -/
def blackOk : List String → Except String Unit := fun _ => Except.ok ()

/-- Concatenation of a list of strings (for stating fold results). -/
def joinAll : List String → String
  | [] => ""
  | s :: rest => s ++ joinAll rest

/-! ## Helper lemmas -/

attribute [simp] stEmit stLogInfo stLogWarning stLogError stCapture stWrite stMakedirs

theorem ensure_testcase_module_cache (env : Env) (st : MakeState) (p : String) :
    (__ensure_testcase_module env st p).make_files_cache_set = st.make_files_cache_set := by
  simp only [__ensure_testcase_module]
  split <;> rfl

theorem ensure_testcase_module_pytest (env : Env) (st : MakeState) (p : String) :
    (__ensure_testcase_module env st p).pytest_files_set = st.pytest_files_set := by
  simp only [__ensure_testcase_module]
  split <;> rfl

theorem prepare_ref_steps_no_refs (env : Env)
    (mk : MakeState → String → MakeState × Except HRError Unit)
    (st : MakeState) (steps : List TestStep)
    (h : ∀ s ∈ steps, truthyOptStr s.testcase = false) :
    prepare_ref_steps env mk st steps = (st, Except.ok ([], steps)) := by
  induction steps with
  | nil => rfl
  | cons s rest ih =>
    have hs : truthyOptStr s.testcase = false := h s (List.mem_cons_self s rest)
    have ih' := ih (fun t ht => h t (List.mem_cons_of_mem s ht))
    simp only [prepare_ref_steps, hs, Bool.false_eq_true, if_false, ih']

theorem make_teststep_chain_style_cases (env : Env) (t : TestStep) :
    (∃ v, make_teststep_chain_style env t = Except.ok v) ∨
    make_teststep_chain_style env t =
      Except.error (HRError.TestCaseFormatError "Invalid teststep") := by
  unfold make_teststep_chain_style
  split
  · exact Or.inl ⟨_, rfl⟩
  · split
    · exact Or.inl ⟨_, rfl⟩
    · exact Or.inr rfl

theorem serialize_steps_error (env : Env) (steps : List TestStep) (s : TestStep)
    (hmem : s ∈ steps) (hreq : truthyRequest s.request = false)
    (htc : truthyOptStr s.testcase = false) :
    serialize_steps env steps =
      Except.error (HRError.TestCaseFormatError "Invalid teststep") := by
  induction steps with
  | nil => cases hmem
  | cons a rest ih =>
    rcases List.mem_cons.mp hmem with h | h
    · subst h
      simp only [serialize_steps, make_teststep_chain_style, hreq, htc,
        Bool.false_eq_true, if_false]
    · rcases make_teststep_chain_style_cases env a with ⟨v, hv⟩ | hv
      · simp only [serialize_steps, hv, ih h]
      · simp only [serialize_steps, hv]

theorem foldl_append_eq_joinAll {α : Type} (f : α → String) (l : List α) (init : String) :
    l.foldl (fun a v => a ++ f v) init = init ++ joinAll (l.map f) := by
  induction l generalizing init with
  | nil => simp [joinAll]
  | cons a rest ih => simp [joinAll, List.foldl, ih, String.append_assoc]

theorem dictLookup_append (d e : VarMap) (k : String) :
    dictLookup (d ++ e) k = (dictLookup d k).orElse (fun _ => dictLookup e k) := by
  induction d with
  | nil => simp [dictLookup, Option.orElse]
  | cons p rest ih =>
    by_cases h : p.1 = k
    · simp [dictLookup, h, Option.orElse]
    · simp [dictLookup, h, Option.orElse, ih]

theorem dictLookup_map_replace (d : VarMap) (k k' : String) (v : PyVal) :
    dictLookup (d.map (fun p => if p.1 = k then (k, v) else p)) k' =
      if k' = k then (if (dictLookup d k).isSome then some v else Option.none)
      else dictLookup d k' := by
  induction d with
  | nil => by_cases h : k' = k <;> simp [dictLookup, h]
  | cons p rest ih =>
    obtain ⟨pk, pv⟩ := p
    rw [List.map_cons]
    by_cases hp : pk = k
    · subst hp
      rw [show (if (pk, pv).1 = pk then (pk, v) else (pk, pv)) = (pk, v) from if_pos rfl]
      by_cases h : k' = pk
      · subst h
        simp [dictLookup, ih]
      · simp [dictLookup, Ne.symm h, h, ih]
    · rw [show (if (pk, pv).1 = k then (k, v) else (pk, pv)) = (pk, pv) from if_neg hp]
      by_cases h : k' = k
      · subst h
        simp [dictLookup, hp, ih, fun heq : pk = k' => hp heq]
      · by_cases hpk : pk = k'
        · subst hpk
          simp [dictLookup, h]
        · simp [dictLookup, hp, h, hpk, ih]

theorem dictLookup_dictSet_self (d : VarMap) (k : String) (v : PyVal) :
    dictLookup (dictSet d k v) k = some v := by
  unfold dictSet
  split
  · next h => simp [dictLookup_map_replace, h]
  · next h =>
    have hnone : dictLookup d k = Option.none := Option.not_isSome_iff_eq_none.mp h
    simp [dictLookup_append, hnone, dictLookup, Option.orElse]

theorem dictLookup_dictSet_ne (d : VarMap) (k k' : String) (v : PyVal)
    (h : k' ≠ k) : dictLookup (dictSet d k v) k' = dictLookup d k' := by
  unfold dictSet
  split
  · simp [dictLookup_map_replace, h]
  · rw [dictLookup_append]
    have hne : ¬ k = k' := fun heq => h heq.symm
    have : dictLookup [(k, v)] k' = Option.none := by simp [dictLookup, hne]
    rw [this]
    cases dictLookup d k' <;> simp [Option.orElse]

theorem dictLookup_eq_none_of_not_mem (e : VarMap) (k : String)
    (h : k ∉ e.map Prod.fst) : dictLookup e k = Option.none := by
  induction e with
  | nil => rfl
  | cons p rest ih =>
    simp only [List.map_cons, List.mem_cons] at h
    push_neg at h
    have hne : ¬ p.1 = k := fun heq => h.1 heq.symm
    simp [dictLookup, hne, ih h.2]

theorem dictUpdate_cons (d : VarMap) (p : String × PyVal) (e : VarMap) :
    dictUpdate d (p :: e) = dictUpdate (dictSet d p.1 p.2) e := rfl

theorem dictLookup_dictUpdate_not_mem (d e : VarMap) (k : String)
    (h : k ∉ e.map Prod.fst) :
    dictLookup (dictUpdate d e) k = dictLookup d k := by
  induction e generalizing d with
  | nil => rfl
  | cons p rest ih =>
    simp only [List.map_cons, List.mem_cons] at h
    push_neg at h
    rw [dictUpdate_cons, ih _ h.2, dictLookup_dictSet_ne _ _ _ _ (fun heq => h.1 heq)]

/-- Lookup through `d.update(e)` on duplicate-free `e`: bindings of `e`
shadow bindings of `d`. -/
theorem dictLookup_dictUpdate (d e : VarMap) (k : String)
    (h : (e.map Prod.fst).Nodup) :
    dictLookup (dictUpdate d e) k =
      (dictLookup e k).orElse (fun _ => dictLookup d k) := by
  induction e generalizing d with
  | nil => cases hd : dictLookup d k <;> simp [dictUpdate, dictLookup, Option.orElse, hd]
  | cons p rest ih =>
    obtain ⟨pk, pv⟩ := p
    simp only [List.map_cons, List.nodup_cons] at h
    rw [dictUpdate_cons, ih _ h.2]
    by_cases hk : pk = k
    · subst hk
      have hr : dictLookup rest pk = Option.none := dictLookup_eq_none_of_not_mem _ _ h.1
      simp [dictLookup, hr, dictLookup_dictSet_self, Option.orElse]
    · simp [dictLookup, hk, dictLookup_dictSet_ne _ _ _ _ (fun heq => hk heq.symm), Option.orElse]

/-! ## Claim theorems -/

/-- Claim C10: `main_make` invoked with an empty list of input paths
returns an empty list immediately; the returned state is the input state
unchanged — neither dedup cache is modified and no effect (in particular
no formatter invocation) is recorded. -/
theorem main_make_empty_input (fuel : Nat) (env : Env)
    (black : List String → Except String Unit) (st : MakeState) :
    main_make fuel env black st [] = (st, Except.ok []) := rfl

/-- Claim C6: for a source path whose base name begins with a decimal
digit, `__ensure_file_name` inserts the fixed prefix letter `T` into the
base name, and `convert_testcase_path` derives the artifact and class
identifier from the prefixed name: `testcases/19.json` yields the artifact
`testcases/T19_test.py` and class identifier `T19`. -/
theorem digit_basename_prefixed (path : String) (c : Char) (rest : List Char)
    (hbase : (os_path_basename path).data = c :: rest)
    (hdigit : c.isDigit = true) :
    __ensure_file_name path =
      Except.ok (os_path_join (os_path_dirname path) ("T" ++ os_path_basename path)) ∧
    convert_testcase_path exEnv "testcases/19.json" =
      Except.ok ("testcases/T19_test.py", "T19") := by
  constructor
  · simp only [__ensure_file_name]
    rw [hbase]
    simp [hdigit]
  · rfl

/-- Witness for C6 at the path `testcases/19.json`. -/
theorem digit_basename_prefixed_witness :
    (os_path_basename "testcases/19.json").data = '1' :: "9.json".data ∧
    '1'.isDigit = true ∧
    __ensure_file_name "testcases/19.json" =
      Except.ok (os_path_join (os_path_dirname "testcases/19.json")
        ("T" ++ os_path_basename "testcases/19.json")) :=
  ⟨rfl, rfl, (digit_basename_prefixed "testcases/19.json" '1' "9.json".data rfl rfl).1⟩

/-- Claim C7 counterexample: the file `testcases/a.JSON` has extension
`.JSON`, which is not one of `.json`/`.yml`/`.yaml`/`.har`, yet
`convert_testcase_path` succeeds instead of raising the parameter error —
the code lowercases the extension before the membership test, so the
claimed "raises if and only if the extension is not in the allow-list"
fails in the only-if direction. -/
theorem uppercase_extension_accepted :
    convert_testcase_path exEnv "testcases/a.JSON" =
      Except.ok ("testcases/a_test.py", "A") ∧
    (splitext (os_path_basename "testcases/a.JSON")).2 ∉
      [".json", ".yml", ".yaml", ".har"] := by
  constructor
  · rfl
  · decide

/-- Claim C7 (amended): for a non-directory source path (with the
digit-prefix adjustment applied, and hence a non-empty base name),
`convert_testcase_path` fails — with `ParamsError` — exactly when the
lowercased extension is outside the fixed allow-list; a directory path is
returned unchanged with an empty identifier and never raises. -/
theorem convert_testcase_path_params_error_iff (env : Env) (path q : String)
    (hnd : env.isDir path = false)
    (hq : __ensure_file_name path = Except.ok q) :
    (strLower (splitext (os_path_basename q)).2 ∈ [".json", ".yml", ".yaml", ".har"] →
      ∃ r, convert_testcase_path env path = Except.ok r) ∧
    (strLower (splitext (os_path_basename q)).2 ∉ [".json", ".yml", ".yaml", ".har"] →
      convert_testcase_path env path =
        Except.error (HRError.ParamsError "testcase file should have .yaml/.yml/.json suffix")) ∧
    (∀ (env' : Env) (p' : String), env'.isDir p' = true →
      convert_testcase_path env' p' = Except.ok (p', "")) := by
  refine ⟨?_, ?_, ?_⟩
  · intro hin
    rcases hsp : splitext (os_path_basename q) with ⟨raw, suf⟩
    rw [hsp] at hin
    simp only [convert_testcase_path, hnd, Bool.false_eq_true, if_false, hq, hsp]
    simp [hin]
  · intro hout
    rcases hsp : splitext (os_path_basename q) with ⟨raw, suf⟩
    rw [hsp] at hout
    simp only [convert_testcase_path, hnd, Bool.false_eq_true, if_false, hq, hsp]
    simp [hout]
  · intro env' p' h
    simp [convert_testcase_path, h]

/-- Witness for C7 (amended), exercising both directions: the allowed
extension `.json` converts, the disallowed extension `.txt` raises the
parameter error. -/
theorem convert_testcase_path_params_error_iff_witness :
    exEnv.isDir "testcases/demo.json" = false ∧
    __ensure_file_name "testcases/demo.json" = Except.ok "testcases/demo.json" ∧
    strLower (splitext (os_path_basename "testcases/demo.json")).2 ∈
      [".json", ".yml", ".yaml", ".har"] ∧
    (∃ r, convert_testcase_path exEnv "testcases/demo.json" = Except.ok r) ∧
    strLower (splitext (os_path_basename "notes.txt")).2 ∉
      [".json", ".yml", ".yaml", ".har"] ∧
    convert_testcase_path exEnv "notes.txt" =
      Except.error (HRError.ParamsError "testcase file should have .yaml/.yml/.json suffix") :=
  ⟨rfl, rfl, by decide,
    (convert_testcase_path_params_error_iff exEnv "testcases/demo.json" "testcases/demo.json"
      rfl rfl).1 (by decide),
    by decide,
    (convert_testcase_path_params_error_iff exEnv "notes.txt" "notes.txt"
      rfl rfl).2.1 (by decide)⟩

/-- Claim C8: `__ensure_cwd_relative` strips the leading process-root
prefix (the root plus its separator) from an absolute path lying under the
root, and returns any relative path unchanged. -/
theorem ensure_cwd_relative_spec (env : Env) (rest p : String)
    (hroot : isabs env.cwd = true) (hrel : isabs p = false) :
    __ensure_cwd_relative env (env.cwd ++ "/" ++ rest) = rest ∧
    __ensure_cwd_relative env p = p := by
  have hda : ∀ s t : String, (s ++ t).data = s.data ++ t.data := fun _ _ => rfl
  have hslash : ("/" : String).data = ['/'] := rfl
  constructor
  · obtain ⟨t, ht⟩ : ∃ t, env.cwd.data = '/' :: t := by
      unfold isabs at hroot
      rcases h : env.cwd.data with _ | ⟨c, ts⟩ <;> rw [h] at hroot <;> simp at hroot
      exact ⟨ts, by rw [hroot]⟩
    have habs : isabs (env.cwd ++ "/" ++ rest) = true := by
      unfold isabs
      rw [hda, hda, hslash, ht]
      rfl
    unfold __ensure_cwd_relative
    rw [habs]
    simp only [if_true]
    unfold pySliceFrom
    rw [hda, hda, hslash]
    rw [show env.cwd.length + 1 = (env.cwd.data ++ ['/']).length by
      rw [List.length_append]
      exact rfl]
    rw [List.drop_left]
  · unfold __ensure_cwd_relative
    rw [hrel]
    simp

/-- Witness for C8 with root `/home/project`. -/
theorem ensure_cwd_relative_spec_witness :
    isabs exEnv.cwd = true ∧ isabs "rel/path.yml" = false ∧
    __ensure_cwd_relative exEnv (exEnv.cwd ++ "/" ++ "testcases/demo_test.py") =
      "testcases/demo_test.py" ∧
    __ensure_cwd_relative exEnv "rel/path.yml" = "rel/path.yml" :=
  ⟨rfl, rfl,
    (ensure_cwd_relative_spec exEnv "testcases/demo_test.py" "rel/path.yml" rfl rfl).1,
    (ensure_cwd_relative_spec exEnv "testcases/demo_test.py" "rel/path.yml" rfl rfl).2⟩

/-- Claim C4: inside a serialized step chain, every validator becomes one
chained assertion call in which the normalized check expression is wrapped
in single quotes, unmodified, when it contains a double-quote character and
in double quotes otherwise, and the expected value is wrapped in double
quotes when it is text and embedded via its literal representation when it
is not. -/
theorem validator_quoting_in_step_chain (env : Env) (nm : String)
    (req : Request) (vs : List Validator) :
    make_teststep_chain_style env
      { name := nm, request := some req, testcase := Option.none,
        vars := Option.none, extract := Option.none, exports := Option.none,
        validate := some vs } =
      Except.ok ("Step(" ++ ("RunRequest(\"" ++ nm ++ "\")" ++
        make_request_chain_style req ++ ".validate()" ++
        joinAll (vs.map (fun v =>
          ".assert_" ++ (env.uniform_validator v).assert_method ++ "(" ++
          (if (env.uniform_validator v).check.contains '"' then
            "\x27" ++ (env.uniform_validator v).check ++ "\x27"
          else "\"" ++ (env.uniform_validator v).check ++ "\"") ++ ", " ++
          (match (env.uniform_validator v).expect with
           | PyVal.str s => "\"" ++ s ++ "\""
           | e => pyStr e) ++ ")"))) ++ ")") := by
  simp only [make_teststep_chain_style, truthyRequest, make_teststep_body]
  rw [foldl_append_eq_joinAll (serialize_validator env) vs]
  rfl

/-- Claim C5: during suite expansion the referenced case's config variable
mapping is merged with reference-entry variables applied first and
suite-level variables applied last, so the suite wins on key conflicts and
reference-only keys survive; for every key the merged lookup is
suite-value, else reference-entry value, else the case's own value.
Concretely, suite variables `{x: 1}` against reference-entry variables
`{x: 2, y: 3}` merge to `{x: 1, y: 3}`. -/
theorem suite_variables_merge_precedence
    (d : TestCaseDoc) (entry : SuiteCaseRef) (tsc : Config)
    (tsv caseVars refVars : VarMap) (p : String)
    (hcase : d.config.vars = some (ConfigVars.map caseVars))
    (hentry : entry.vars = some refVars)
    (hnr : (refVars.map Prod.fst).Nodup) (hns : (tsv.map Prod.fst).Nodup) :
    ∃ d', suite_override_config d entry tsc tsv p = Except.ok d' ∧
      d'.config.vars =
        some (ConfigVars.map (dictUpdate (dictUpdate caseVars refVars) tsv)) ∧
      (∀ k, dictLookup (dictUpdate (dictUpdate caseVars refVars) tsv) k =
        (dictLookup tsv k).orElse (fun _ =>
          (dictLookup refVars k).orElse (fun _ => dictLookup caseVars k))) ∧
      dictUpdate (dictUpdate ([] : VarMap) [("x", PyVal.int 2), ("y", PyVal.int 3)])
          [("x", PyVal.int 1)] = [("x", PyVal.int 1), ("y", PyVal.int 3)] := by
  have h1 := fun k => dictLookup_dictUpdate (dictUpdate caseVars refVars) tsv k hns
  have h2 := fun k => dictLookup_dictUpdate caseVars refVars k hnr
  have hlook : ∀ k, dictLookup (dictUpdate (dictUpdate caseVars refVars) tsv) k =
      (dictLookup tsv k).orElse (fun _ =>
        (dictLookup refVars k).orElse (fun _ => dictLookup caseVars k)) := by
    intro k
    rw [h1 k]
    simp only [h2]
  have hex : dictUpdate (dictUpdate ([] : VarMap) [("x", PyVal.int 2), ("y", PyVal.int 3)])
      [("x", PyVal.int 1)] = [("x", PyVal.int 1), ("y", PyVal.int 3)] := by decide
  have hbv : (suite_override_base d.config entry tsc p).vars = d.config.vars := by
    simp only [suite_override_base]
    split <;> split <;> (try split) <;> rfl
  simp only [suite_override_config, hbv, hcase, hentry, Option.getD]
  exact ⟨_, rfl, rfl, hlook, hex⟩

/-- Witness for C5: suite variables `{x: 1}`, reference-entry variables
`{x: 2, y: 3}`, empty case variables. -/
theorem suite_variables_merge_precedence_witness :
    ({ config := { name := "case", vars := some (ConfigVars.map []) } } : TestCaseDoc).config.vars =
      some (ConfigVars.map []) ∧
    ({ testcase := "c.yml", name := "n",
        vars := some [("x", PyVal.int 2), ("y", PyVal.int 3)] } : SuiteCaseRef).vars =
      some [("x", PyVal.int 2), ("y", PyVal.int 3)] ∧
    (∃ d', suite_override_config
        { config := { name := "case", vars := some (ConfigVars.map []) } }
        { testcase := "c.yml", name := "n",
          vars := some [("x", PyVal.int 2), ("y", PyVal.int 3)] }
        {} [("x", PyVal.int 1)] "/home/project/c.yml" = Except.ok d' ∧
      d'.config.vars = some (ConfigVars.map
        (dictUpdate (dictUpdate [] [("x", PyVal.int 2), ("y", PyVal.int 3)])
          [("x", PyVal.int 1)])) ∧
      (∀ k, dictLookup (dictUpdate (dictUpdate [] [("x", PyVal.int 2), ("y", PyVal.int 3)])
          [("x", PyVal.int 1)]) k =
        (dictLookup [("x", PyVal.int 1)] k).orElse (fun _ =>
          (dictLookup [("x", PyVal.int 2), ("y", PyVal.int 3)] k).orElse
            (fun _ => dictLookup [] k))) ∧
      dictUpdate (dictUpdate ([] : VarMap) [("x", PyVal.int 2), ("y", PyVal.int 3)])
          [("x", PyVal.int 1)] = [("x", PyVal.int 1), ("y", PyVal.int 3)]) :=
  ⟨rfl, rfl,
    suite_variables_merge_precedence
      { config := { name := "case", vars := some (ConfigVars.map []) } }
      { testcase := "c.yml", name := "n",
        vars := some [("x", PyVal.int 2), ("y", PyVal.int 3)] }
      {} [("x", PyVal.int 1)] [] [("x", PyVal.int 2), ("y", PyVal.int 3)]
      "/home/project/c.yml" rfl rfl (by decide) (by decide)⟩

/-- Claim C9: a failing formatter invocation is caught — the run logs the
failure and reports it to the error-tracking collaborator, the caches are
untouched, and `format_pytest_with_black` returns normally; moreover the
artifact path list returned by `main_make` does not depend on the
formatter's behavior at all. -/
theorem formatter_failure_nonfatal (fuel : Nat) (env : Env)
    (b1 b2 : List String → Except String Unit) (st : MakeState)
    (paths ps : List String) (ex : String) (hb : b1 ps = Except.error ex) :
    ((format_pytest_with_black b1 st ps).events =
        st.events ++ [Event.logInfo "format pytest cases with black ...",
          Event.captureException ex, Event.logError ex] ∧
      (format_pytest_with_black b1 st ps).make_files_cache_set = st.make_files_cache_set ∧
      (format_pytest_with_black b1 st ps).pytest_files_set = st.pytest_files_set) ∧
    (main_make fuel env b1 st paths).2 = (main_make fuel env b2 st paths).2 := by
  constructor
  · unfold format_pytest_with_black
    rw [hb]
    simp
  · cases paths with
    | nil => rfl
    | cons a rest =>
      simp only [main_make]
      rcases main_make_loop fuel env st (a :: rest) with ⟨st1, r⟩
      cases r <;> simp [format_pytest_with_black]

/-- Witness for C9: the formatter fails with `"black failed"`. -/
theorem formatter_failure_nonfatal_witness :
    blackFail [] = Except.error "black failed" ∧
    (format_pytest_with_black blackFail st0 []).events =
      st0.events ++ [Event.logInfo "format pytest cases with black ...",
        Event.captureException "black failed", Event.logError "black failed"] ∧
    (main_make 1 exEnv blackFail st0 []).2 = (main_make 1 exEnv blackOk st0 []).2 :=
  ⟨rfl,
    (formatter_failure_nonfatal 1 exEnv blackFail blackOk st0 [] [] "black failed" rfl).1.1,
    (formatter_failure_nonfatal 1 exEnv blackFail blackOk st0 [] [] "black failed" rfl).2⟩

/-- Claim C1 (code slip, evaluated at the failing input): two successive
`make_testcase` invocations on the same document write the artifact twice.
The first call caches the cwd-relative artifact path
`testcases/demo_test.py` (make.py line 334 applies `__ensure_cwd_relative`
before `add`) while the dedup check (line 274) tests the absolute path
`/home/project/testcases/demo_test.py`, so the second invocation misses
the cache, re-serializes and re-writes — against the module's own
"avoid duplicate making" cache comment (lines 22-23) and the spec's
idempotence guarantee. -/
theorem make_testcase_second_call_rewrites :
    countWrites (make_testcase 10 exEnv st0 exDoc Option.none false).1
      "/home/project/testcases/demo_test.py" = 1 ∧
    (make_testcase 10 exEnv st0 exDoc Option.none false).1.make_files_cache_set =
      ["testcases/demo_test.py"] ∧
    (make_testcase 10 exEnv st0 exDoc Option.none false).2 =
      Except.ok "/home/project/testcases/demo_test.py" ∧
    countWrites (make_testcase 10 exEnv
        (make_testcase 10 exEnv st0 exDoc Option.none false).1 exDoc Option.none false).1
      "/home/project/testcases/demo_test.py" = 2 := by
  refine ⟨?_, ?_, ?_, ?_⟩ <;> rfl

/-- Claim C2 counterexample: a generation invoked with `ref_flag = true`
succeeds and returns the artifact path, but adds it to NEITHER cache — in
particular not to the dedup cache `make_files_cache_set` (the spec's
`generatedPaths`), refuting the claim's "… but is added to the dedup
cache". -/
theorem ref_flag_not_added_to_dedup_cache :
    (make_testcase 10 exEnv st0 exDoc Option.none true).2 =
      Except.ok "/home/project/testcases/demo_test.py" ∧
    (make_testcase 10 exEnv st0 exDoc Option.none true).1.make_files_cache_set = [] ∧
    (make_testcase 10 exEnv st0 exDoc Option.none true).1.pytest_files_set = [] := by
  refine ⟨?_, ?_, ?_⟩ <;> rfl

/-- Claim C2 (amended): for a generation whose document carries no
reference steps (so the invocation's own effects are isolated from nested
generations), `make_testcase` never touches the top-level result set
`pytest_files_set`; with `ref_flag = true` it leaves the dedup cache
`make_files_cache_set` unchanged as well; and with `ref_flag = false` a
successful generation either hit the cache or added the returned artifact
path (in its cwd-relative form) to the dedup cache. -/
theorem ref_flag_cache_discipline (fuel : Nat) (env : Env) (st : MakeState)
    (doc : TestCaseDoc) (dp : Option String) (rf : Bool)
    (hnoref : ∀ s ∈ (env.ensure_testcase_v3 doc).teststeps, truthyOptStr s.testcase = false) :
    (make_testcase (fuel + 1) env st doc dp rf).1.pytest_files_set = st.pytest_files_set ∧
    (rf = true →
      (make_testcase (fuel + 1) env st doc dp rf).1.make_files_cache_set =
        st.make_files_cache_set) ∧
    (rf = false → ∀ p, (make_testcase (fuel + 1) env st doc dp rf).2 = Except.ok p →
      p ∈ st.make_files_cache_set ∨
      (make_testcase (fuel + 1) env st doc dp rf).1.make_files_cache_set =
        setAdd st.make_files_cache_set (__ensure_cwd_relative env p)) := by
  have hp : ∀ (mk : MakeState → String → MakeState × Except HRError Unit) (st' : MakeState),
      prepare_ref_steps env mk st' (env.ensure_testcase_v3 doc).teststeps =
        (st', Except.ok ([], (env.ensure_testcase_v3 doc).teststeps)) :=
    fun mk st' => prepare_ref_steps_no_refs env mk st' _ hnoref
  simp only [make_testcase, hp]
  split
  · simp
  · split
    · simp
    · split
      · simp
      · split <;>
        · split
          · rename_i hmem
            refine ⟨rfl, fun _ => rfl, fun _ p hpe => ?_⟩
            cases hpe
            exact Or.inl hmem
          · split
            · refine ⟨rfl, fun _ => rfl, fun _ p hpe => ?_⟩
              cases hpe
            · split
              · rename_i hrft
                refine ⟨?_, fun _ => ?_, fun hrf => by simp [hrf] at hrft⟩
                · simp [ensure_testcase_module_pytest]
                · simp [ensure_testcase_module_cache]
              · rename_i hrff
                refine ⟨?_, fun hrf => absurd hrf hrff, fun _ p hpe => ?_⟩
                · simp [ensure_testcase_module_pytest]
                · cases hpe
                  refine Or.inr ?_
                  simp [ensure_testcase_module_cache]

/-- Witness for C2 (amended): the demo document generated with
`ref_flag = true` leaves the dedup cache unchanged. -/
theorem ref_flag_cache_discipline_witness :
    (∀ s ∈ (exEnv.ensure_testcase_v3 exDoc).teststeps, truthyOptStr s.testcase = false) ∧
    (make_testcase 10 exEnv st0 exDoc Option.none true).1.make_files_cache_set =
      st0.make_files_cache_set := by
  have hnoref : ∀ s ∈ (exEnv.ensure_testcase_v3 exDoc).teststeps,
      truthyOptStr s.testcase = false := by
    intro s hs
    simp [exEnv, exDoc] at hs
    subst hs
    rfl
  exact ⟨hnoref,
    (ref_flag_cache_discipline 9 exEnv st0 exDoc Option.none true hnoref).2.1 rfl⟩

/-- Claim C3: a teststep with neither a truthy `request` nor a truthy
`testcase` field makes serialization — and hence the whole single-document
generation `make_testcase` — fail with the testcase format error; during
batch processing (`__make`'s per-file loop) that same error is caught and
the loop simply continues over the remaining files. -/
theorem invalid_teststep_error_handling :
    (∀ (fuel : Nat) (env : Env) (st : MakeState) (doc : TestCaseDoc)
       (dp : Option String) (rf : Bool) (cp pp cls : String) (s : TestStep),
      env.load_testcase (env.ensure_testcase_v3 doc) = Except.ok () →
      (env.ensure_testcase_v3 doc).config.path = some cp →
      convert_testcase_path env (__ensure_absolute env cp) = Except.ok (pp, cls) →
      truthyOptStr dp = false →
      pp ∉ st.make_files_cache_set →
      (∀ t ∈ (env.ensure_testcase_v3 doc).teststeps, truthyOptStr t.testcase = false) →
      s ∈ (env.ensure_testcase_v3 doc).teststeps →
      truthyRequest s.request = false →
      truthyOptStr s.testcase = false →
      ∃ m, (make_testcase (fuel + 1) env st doc dp rf).2 =
        Except.error (HRError.TestCaseFormatError m)) ∧
    (∀ (env : Env)
       (mkCase : MakeState → TestCaseDoc → MakeState × Except HRError String)
       (mkSuite : MakeState → TestSuiteDoc → MakeState × Except HRError Unit)
       (st st' : MakeState) (f : String) (rest : List String) (d : TestCaseDoc) (m : String),
      strEndsWith (strLower f) "_test.py" = false →
      env.load_test_file f = Except.ok (TestContent.case d) →
      mkCase st { d with config := { d.config with path := some f } } =
        (st', Except.error (HRError.TestCaseFormatError m)) →
      make_files_loop env mkCase mkSuite st (f :: rest) =
        make_files_loop env mkCase mkSuite st' rest) := by
  constructor
  · intro fuel env st doc dp rf cp pp cls s hload hpath hconv hdp hcache hnoref hmem hreq htc
    have hp : ∀ (mk : MakeState → String → MakeState × Except HRError Unit) (st' : MakeState),
        prepare_ref_steps env mk st' (env.ensure_testcase_v3 doc).teststeps =
          (st', Except.ok ([], (env.ensure_testcase_v3 doc).teststeps)) :=
      fun mk st' => prepare_ref_steps_no_refs env mk st' _ hnoref
    have hser := serialize_steps_error env _ s hmem hreq htc
    simp only [make_testcase, hload, hpath, hconv, hdp, hp, hser, Bool.false_eq_true,
      if_false, stLogInfo, stEmit]
    simp [hcache]
  · intro env mkCase mkSuite st st' f rest d m hend hload hmk
    simp only [make_files_loop, hend, hload, hmk, Bool.false_eq_true, if_false]

/-- Witness for C3: the document with the field-less step `exBadStep`
fails single-document generation with the testcase format error, and the
batch loop catches that error for the file `bad.yml` and continues with
the rest of the list. -/
theorem invalid_teststep_error_handling_witness :
    truthyRequest exBadStep.request = false ∧
    truthyOptStr exBadStep.testcase = false ∧
    (∃ m, (make_testcase 10 exEnv st0 exBadDoc Option.none false).2 =
      Except.error (HRError.TestCaseFormatError m)) ∧
    make_files_loop exEnvBatch exMkCaseFail exMkSuite st0 ["bad.yml"] =
      make_files_loop exEnvBatch exMkCaseFail exMkSuite st0 [] := by
  have hnoref : ∀ t ∈ (exEnv.ensure_testcase_v3 exBadDoc).teststeps,
      truthyOptStr t.testcase = false := by
    intro t ht
    simp [exEnv, exBadDoc] at ht
    subst ht
    rfl
  have hmem : exBadStep ∈ (exEnv.ensure_testcase_v3 exBadDoc).teststeps := by
    simp [exEnv, exBadDoc]
  refine ⟨rfl, rfl, ?_, ?_⟩
  · exact invalid_teststep_error_handling.1 9 exEnv st0 exBadDoc Option.none false
      "testcases/bad.json" "/home/project/testcases/bad_test.py" "Bad" exBadStep
      rfl rfl rfl rfl (by simp [st0]) hnoref hmem rfl rfl
  · exact invalid_teststep_error_handling.2 exEnvBatch exMkCaseFail exMkSuite st0 st0
      "bad.yml" [] exBadDoc "Invalid teststep" rfl rfl rfl
